import Mathlib

/-!
Verification development for the alert-ingestion and question-answering core
of the repository: a shallow embedding in Lean 4 of

* the HTML tabular alert parser and its field extractors
  (server/utils/parser.js),
* the SQL answering engine (server/services/sqlEngine.js),
* the retrieval (RAG) answering engine (server/services/ragEngine.js, shipped
  here unnamed) and the embedding-input composition shared with the
  re-embedding script (scripts/generateEmbeddings.js),
* the chat question router (server/routes/chat route).

JavaScript strings are modelled as Lean `String` over their code points
(ASCII-faithful: `toUpperCase`/`toLowerCase`/`trim`/`\s` are modelled on the
ASCII fragment, which covers every keyword and pattern the code matches).
JavaScript `Date` parsing and current time are modelled by an explicit
context `JSDateCtx` carrying a parse oracle returning the millisecond epoch
(`new Date(v)` followed by `toISOString`/`getTime` round-trips exactly to
that epoch for valid dates).  The external store and the LLM provider are
modelled as explicit function parameters, and each fallible provider call is
counted so that "no provider round-trip happens" is a provable statement.
Regular expressions used by the code are simple label-plus-capture shapes and
are embedded as explicit left-to-right scanners with the same semantics.
-/

/-! ### JavaScript string primitives -/

/-- ASCII fragment of the JavaScript `\s` class (space, tab, LF, CR, VT, FF). -/
def jsIsSpace (c : Char) : Bool :=
  c = ' ' || c = '\t' || c = '\n' || c = '\r' || c = '\x0b' || c = '\x0c'

/-- JavaScript `\d`: the ASCII digits. -/
def jsIsDigit (c : Char) : Bool := '0' ≤ c && c ≤ '9'

/-- `String.prototype.toUpperCase` on the ASCII fragment. -/
def jsToUpper (s : String) : String := String.mk (s.data.map Char.toUpper)

/-- `String.prototype.toLowerCase` on the ASCII fragment. -/
def jsToLower (s : String) : String := String.mk (s.data.map Char.toLower)

/-- `String.prototype.trim` (ASCII whitespace). -/
def jsTrim (s : String) : String :=
  String.mk (((s.data.dropWhile jsIsSpace).reverse.dropWhile jsIsSpace).reverse)

/-- Does `pat` occur as a contiguous run inside `hay`?  (JS `includes`.) -/
def listContains (pat : List Char) : List Char → Bool
  | [] => pat.isPrefixOf []
  | c :: cs => pat.isPrefixOf (c :: cs) || listContains pat cs

/-- `String.prototype.includes`. -/
def strContains (s pat : String) : Bool := listContains pat.data s.data

/-- `String.prototype.startsWith`. -/
def jsStartsWith (s pre : String) : Bool := pre.data.isPrefixOf s.data

/-- `String.prototype.substring(a, b)` for `a ≤ b` (code points). -/
def jsSubstring (s : String) (a b : Nat) : String :=
  String.mk ((s.data.drop a).take (b - a))

/-- JavaScript truthiness of a nullable string (`null`/`undefined`/`""` are
falsy). -/
def jsStrTruthy (o : Option String) : Bool := o.getD "" ≠ ""

/-! ### Label-plus-capture regex scanners

The parser's regexes all have the shape "literal label, optional whitespace,
capture group".  They are embedded as per-position matchers driven by a
left-to-right scanner, which is exactly the JS `String.match` strategy of
trying the pattern at each successive start index and returning the first
match. -/

/-- Match `label` (case-insensitively when `ci`) as a literal at the head of
`s`; on success return the remainder of `s`. -/
def dropLabel (ci : Bool) : List Char → List Char → Option (List Char)
  | [], rest => some rest
  | _ :: _, [] => none
  | p :: ps, c :: cs =>
    if (if ci then p.toLower = c.toLower else p = c) then dropLabel ci ps cs
    else none

/-- Try `label` + (optional `\s*`) + `(\d+)` at the head of `s`; return the
captured digit run. -/
def tryNumPattern (ci allowWs : Bool) (label s : List Char) : Option String :=
  match dropLabel ci label s with
  | none => none
  | some rest =>
    match (if allowWs then rest.dropWhile jsIsSpace else rest).takeWhile jsIsDigit with
    | [] => none
    | d :: ds => some (String.mk (d :: ds))

/-- Try `Host:` + `\s*` + `([^\s,]+)` (case-insensitive) at the head of `s`. -/
def tryHostPattern (s : List Char) : Option String :=
  match dropLabel true "Host:".data s with
  | none => none
  | some rest =>
    match (rest.dropWhile jsIsSpace).takeWhile (fun c => !jsIsSpace c && c ≠ ',') with
    | [] => none
    | d :: ds => some (String.mk (d :: ds))

/-- Left-to-right scan: first start position at which `f` matches wins. -/
def scanFor (f : List Char → Option String) : List Char → Option String
  | [] => f []
  | c :: cs =>
    match f (c :: cs) with
    | some r => some r
    | none => scanFor f cs

/-- `text.match(/label\s*(\d+)/)` (with the `i` and `\s*` options as flags),
returning the first capture. -/
def findNumPattern (ci allowWs : Bool) (label text : String) : Option String :=
  scanFor (tryNumPattern ci allowWs label.data) text.data

/-! ### Row fragments and the JS date context -/

/-- One table row (`tr`) as the extractors see it: the texts of its `td`
cells, the class-hinted descendant elements as (class attribute, text) pairs,
the row's `bgcolor` attribute, and the row's full text. -/
structure RowFrag where
  cells : List String
  classElems : List (String × String)
  bgcolor : Option String
  text : String

/-- Ambient JavaScript date services: `now` is `new Date().getTime()`, and
`parseDate v` is the millisecond epoch of `new Date(v)` when that date is
valid, `none` when it is `NaN`. -/
structure JSDateCtx where
  now : Int
  parseDate : String → Option Int

/-- `cells.eq(i).text()` (cheerio returns the empty selection, hence `""`,
out of range). -/
def cellText (row : RowFrag) (i : Nat) : String := row.cells.getD i ""

/-- `$row.find('[class*=needle]').text()`: concatenated text of the
descendants whose class attribute contains `needle`. -/
def findByClass (row : RowFrag) (needle : String) : String :=
  String.join ((row.classElems.filter (fun e => strContains e.1 needle)).map (fun e => e.2))

/-! ### Field extractors (parser.js) -/

/-- The three candidate strings tried by `extractTimestamp`, in order. -/
def tsCandidates (row : RowFrag) : List String :=
  [jsTrim (cellText row 0), jsTrim (findByClass row "time"), jsTrim (findByClass row "date")]

/-- `extractTimestamp`, modelled at the level of the millisecond epoch: the
first truthy, date-parseable candidate wins; the default is the current
time.  (The source stores `new Date(value).toISOString()`; parsing that ISO
string back with `getTime()` recovers exactly this epoch.) -/
def extractTimestampEpoch (ctx : JSDateCtx) (row : RowFrag) : Int :=
  match (tsCandidates row).findSome? (fun v => if v = "" then none else ctx.parseDate v) with
  | some e => e
  | none => ctx.now

/-- `extractStatus`: keyword search on the upper-cased row text, then the
background-color heuristic (note the `'#ff'` / `'#0f'` probes are run on the
raw attribute, only the `'red'` / `'green'` probes on its lower-casing). -/
def extractStatus (row : RowFrag) : String :=
  if strContains (jsToUpper row.text) "PROBLEM" then "PROBLEM"
  else if strContains (jsToUpper row.text) "OK" then "OK"
  else if strContains (jsToUpper row.text) "RESOLVED" then "RESOLVED"
  else
    if strContains (jsToLower (row.bgcolor.getD "")) "red"
        || strContains (row.bgcolor.getD "") "#ff" then "PROBLEM"
    else if strContains (jsToLower (row.bgcolor.getD "")) "green"
        || strContains (row.bgcolor.getD "") "#0f" then "OK"
    else "UNKNOWN"

/-- `extractSeverity`: tiered keyword search on the upper-cased row text,
defaulting from the extracted status. -/
def extractSeverity (row : RowFrag) : String :=
  if strContains (jsToUpper row.text) "DISASTER"
      || strContains (jsToUpper row.text) "CRITICAL" then "CRITICAL"
  else if strContains (jsToUpper row.text) "HIGH" then "HIGH"
  else if strContains (jsToUpper row.text) "AVERAGE"
      || strContains (jsToUpper row.text) "WARNING" then "WARNING"
  else if strContains (jsToUpper row.text) "LOW"
      || strContains (jsToUpper row.text) "INFORMATION" then "LOW"
  else if extractStatus row = "PROBLEM" then "WARNING" else "LOW"

/-- The acceptance check inside `extractHost`'s strategy loop:
`value && value.length > 0 && value.length < 100`. -/
abbrev hostOk (v : String) : Prop := 0 < v.length ∧ v.length < 100

/-- `extractHost`: class-hinted element, else second cell, else the regex
`/Host:\s*([^\s,]+)/i`; first candidate passing `hostOk` wins, default
`"UNKNOWN"`. -/
def extractHost (row : RowFrag) : String :=
  if hostOk (jsTrim (findByClass row "host")) then jsTrim (findByClass row "host")
  else if hostOk (jsTrim (cellText row 1)) then jsTrim (cellText row 1)
  else if hostOk ((scanFor tryHostPattern row.text.data).getD "") then
    (scanFor tryHostPattern row.text.data).getD ""
  else "UNKNOWN"

/-- The four ordered id regexes of `extractProblemId`:
`/Problem ID:\s*(\d+)/i`, `/ID:\s*(\d+)/i`, `/#(\d+)/`, `/Event ID:\s*(\d+)/i`. -/
def problemIdPatterns (text : String) : Option String :=
  match findNumPattern true true "Problem ID:" text with
  | some r => some r
  | none =>
  match findNumPattern true true "ID:" text with
  | some r => some r
  | none =>
  match findNumPattern false false "#" text with
  | some r => some r
  | none => findNumPattern true true "Event ID:" text

/-- `extractProblemId`: first id regex match, else the synthesized fallback
`` `${host}-${new Date(timestamp).getTime()}`.substring(0, 20) ``. -/
def extractProblemId (ctx : JSDateCtx) (row : RowFrag) : String :=
  match problemIdPatterns row.text with
  | some pid => pid
  | none =>
    jsSubstring (extractHost row ++ "-" ++ (extractTimestampEpoch ctx row).repr) 0 20

/-! ### The tabular parser (parseHTMLAlerts) -/

/-- The fields of the assembled alert record that the parser's acceptance
logic and the claims under verification depend on.  (The remaining extracted
fields — interface, alert type, description, duration, provider — never
influence row acceptance and are not inspected by any claim.) -/
structure Alert where
  timestampEpoch : Int
  status : String
  severity : String
  host : String
  problem_id : String
deriving Repr, DecidableEq

/-- Assembly of one alert record from one row. -/
def buildAlert (ctx : JSDateCtx) (row : RowFrag) : Alert :=
  { timestampEpoch := extractTimestampEpoch ctx row
    status := extractStatus row
    severity := extractSeverity row
    host := extractHost row
    problem_id := extractProblemId ctx row }

/-- One iteration of the `$('table tr').each` body: skip rows without `td`
cells, build the record, keep it only when `problem_id` and `host` are
truthy (non-empty).  Extraction in this embedding is total, so the source's
per-row `try/catch` never fires. -/
def parseStep (ctx : JSDateCtx) (acc : List Alert) (row : RowFrag) : List Alert :=
  if row.cells.isEmpty then acc
  else
    if (buildAlert ctx row).problem_id ≠ "" ∧ (buildAlert ctx row).host ≠ "" then
      acc ++ [buildAlert ctx row]
    else acc

/-- `parseHTMLAlerts`, over the document's table rows in order. -/
def parseHTMLAlerts (ctx : JSDateCtx) (rows : List RowFrag) : List Alert :=
  rows.foldl (parseStep ctx) []

/-! ### Question router (sqlEngine.shouldUseSQL / ragEngine.shouldUseRAG /
chat route) -/

def sqlKeywords : List String :=
  ["how many", "count", "total", "show", "list", "get", "find", "what are",
   "which", "when", "statistics", "stats", "number of", "hosts", "alerts",
   "last", "recent"]

def ragKeywords : List String :=
  ["why", "analyze", "recommend", "explain", "pattern", "trend", "cause",
   "reason", "what happened", "diagnose", "investigate", "understand",
   "insight", "suggest"]

/-- `shouldUseSQL`. -/
def shouldUseSQL (question : String) : Bool :=
  sqlKeywords.any (fun keyword => strContains (jsToLower question) keyword)

/-- `shouldUseRAG`. -/
def shouldUseRAG (question : String) : Bool :=
  ragKeywords.any (fun keyword => strContains (jsToLower question) keyword)

inductive Route where
  | sql : Route
  | rag : Route
deriving Repr, DecidableEq

/-- The chat route's dispatch: SQL first, then RAG, defaulting to SQL. -/
def routeQuestion (message : String) : Route :=
  if shouldUseSQL message then Route.sql
  else if shouldUseRAG message then Route.rag
  else Route.sql

/-! ### SQL answering engine (sqlEngine.js) -/

/-- An LLM chat message. -/
structure Msg where
  role : String
  content : String
deriving Repr, DecidableEq

/-- Options of a completion request. -/
structure LLMOpts where
  temperature : Rat
  maxTokens : Option Nat
deriving Repr, DecidableEq

/-- One result row: a JSON object as an ordered key/value list; a value is
either a rendered primitive or `null`. -/
abbrev SQLRow := List (String × Option String)

/-- `` `${value}` `` rendering of a cell. -/
def jsTemplateVal : Option String → String
  | none => "null"
  | some s => s

/-- Errors thrown by `executeSQLQuery`: the guard's own rejection, or an
error surfaced from the store. -/
inductive SQLError where
  | onlySelect : SQLError
  | store : String → SQLError
deriving Repr, DecidableEq

/-- The message carried by each `SQLError`. -/
def sqlErrorMessage : SQLError → String
  | SQLError.onlySelect => "Only SELECT queries are allowed"
  | SQLError.store e => e

/-- The store as `executeSQLQuery` uses it: the `execute_sql` RPC, and the
unfiltered bounded fetch used as fallback when the RPC errors. -/
structure SQLStore where
  rpc : String → Except String (List SQLRow)
  directFetch : Except String (List SQLRow)

/-- `executeSQLQuery`.  The second component records the queries handed to
the store's `execute_sql` RPC, so "the store was never invoked" is the
statement that this list is empty. -/
def executeSQLQuery (st : SQLStore) (query : String) : Except SQLError (List SQLRow) × List String :=
  if jsStartsWith (jsToUpper (jsTrim query)) "SELECT" then
    match st.rpc query with
    | Except.ok d => (Except.ok d, [query])
    | Except.error _ =>
      match st.directFetch with
      | Except.ok d => (Except.ok d, [query])
      | Except.error e => (Except.error (SQLError.store e), [query])
  else (Except.error SQLError.onlySelect, [])

/-- The per-row cleaning in `formatSQLResults`: drop `description` and
`embedding`, re-append a 100-character description preview (or `null`). -/
def cleanRow (row : SQLRow) : SQLRow :=
  row.filter (fun kv => kv.1 ≠ "description" && kv.1 ≠ "embedding") ++
    [("description",
      match (row.lookup "description").getD none with
      | some s => if s ≠ "" then some (jsSubstring s 0 100 ++ "...") else none
      | none => none)]

/-- `r.host || r.problem_id` followed by `Array.prototype.join`'s rendering
(`null` becomes the empty string). -/
def fallbackEntry (r : SQLRow) : String :=
  match (if jsStrTruthy ((r.lookup "host").getD none) then (r.lookup "host").getD none
         else (r.lookup "problem_id").getD none) with
  | some s => s
  | none => ""

/-- The narration branch of `formatSQLResults`: one completion round-trip,
falling back to the templated summary when the provider fails.  `stringify`
stands for `JSON.stringify(·, null, 2)`. -/
def narrateResults (complete : List Msg → LLMOpts → Except String String)
    (stringify : List SQLRow → String) (question : String) (rs : List SQLRow) :
    String × Nat :=
  match complete
      [⟨"system", "You are a helpful assistant that formats database query results into natural language responses. Be concise and clear."⟩,
       ⟨"user", "Question: " ++ question ++ "\n\nResults (showing first "
          ++ ((rs.take 20).map cleanRow).length.repr ++ " of " ++ rs.length.repr
          ++ "):\n" ++ stringify ((rs.take 20).map cleanRow)
          ++ "\n\nPlease provide a clear, concise answer based on these results."⟩]
      ⟨(5 : Rat)/10, none⟩ with
  | Except.ok response => (response, 1)
  | Except.error _ =>
    ("Found " ++ rs.length.repr ++ " results. Top entries include: "
      ++ String.intercalate ", " ((((rs.take 20).map cleanRow).take 5).map fallbackEntry), 1)

/-- `formatSQLResults`.  The second component counts completion round-trips. -/
def formatSQLResults (complete : List Msg → LLMOpts → Except String String)
    (stringify : List SQLRow → String) (question : String)
    (results : Option (List SQLRow)) : String × Nat :=
  match results with
  | none => ("I couldn't find any results for that query.", 0)
  | some rs =>
    if rs.length = 0 then ("I couldn't find any results for that query.", 0)
    else if rs.length = 1 ∧ (rs.headD []).length = 1 then
      ("The answer is: " ++ jsTemplateVal ((rs.headD []).headD ("", none)).2, 0)
    else narrateResults complete stringify question rs

/-- The scalar-result test of `formatSQLResults`:
`results.length === 1 && Object.keys(results[0]).length === 1`. -/
def isSingleScalar (results : Option (List SQLRow)) : Bool :=
  match results with
  | some rs => decide (rs.length = 1 ∧ (rs.headD []).length = 1)
  | none => false

/-! ### Retrieval answering engine (ragEngine.js) -/

/-- A stored alert as similarity search returns it.  `similarity` models the
JS float score; the claims never compute with it. -/
structure StoredAlert where
  problem_id : String
  host : String
  status : String
  timestamp : String
  description : String
  interface : Option String
  severity : Option String
  duration_seconds : Nat
  similarity : Rat
deriving Repr, DecidableEq

/-- One entry of the response metadata's `sources`. -/
structure RAGSource where
  problem_id : String
  host : String
  timestamp : String
  description : String
  similarity : Rat
deriving Repr, DecidableEq

structure RAGMetadata where
  sources : List RAGSource
  relevantCount : Nat
deriving Repr, DecidableEq

/-- The RAG response (`type` is spelled `rtype`, `type` being reserved). -/
structure RAGResponse where
  answer : String
  rtype : String
  metadata : RAGMetadata
deriving Repr, DecidableEq

/-- The environment the RAG engine runs in: the embedding provider, the
similarity search, the completion provider, and the JS number/date rendering
services (`toLocaleString`, `(x*100).toFixed(1)`, `(x*100).toFixed(0)`). -/
structure RAGEnv where
  embed : String → Except String (List Rat)
  search : List Rat → Rat → Nat → Except String (Option (List StoredAlert))
  complete : List Msg → LLMOpts → Except String String
  locale : String → String
  pct1 : Rat → String
  pct0 : Rat → String

/-- One alert's block inside `formatAlertsContext`. -/
def alertContextBlock (env : RAGEnv) (idx : Nat) (a : StoredAlert) : String :=
  "Alert " ++ (idx + 1).repr ++ ":\n"
    ++ "- Problem ID: " ++ a.problem_id ++ "\n"
    ++ "- Host: " ++ a.host ++ "\n"
    ++ "- Status: " ++ a.status ++ "\n"
    ++ "- Timestamp: " ++ env.locale a.timestamp ++ "\n"
    ++ "- Description: " ++ a.description ++ "\n"
    ++ (if jsStrTruthy a.interface then "- Interface: " ++ a.interface.getD "" ++ "\n" else "")
    ++ (if jsStrTruthy a.severity then "- Severity: " ++ a.severity.getD "" ++ "\n" else "")
    ++ (if a.duration_seconds ≠ 0 then
          "- Duration: " ++ (a.duration_seconds / 60).repr ++ " minutes\n" else "")
    ++ "- Similarity: " ++ env.pct1 a.similarity ++ "%\n" ++ "\n"

/-- `formatAlertsContext`. -/
def formatAlertsContext (env : RAGEnv) (alerts : List StoredAlert) : String :=
  "Relevant Network Monitoring Alerts:\n\n"
    ++ String.join (alerts.enum.map (fun p => alertContextBlock env p.1 p.2))

/-- The system prompt of `generateRAGAnswer`. -/
def ragSystemPrompt : String :=
  "You are a network monitoring expert analyzing alerts and issues.\n\nYour task is to:\n1. Analyze the provided network monitoring alerts\n2. Answer the user's question based on the context and conversation history\n3. Identify patterns, trends, or issues\n4. Provide actionable insights and recommendations\n5. Reference specific alerts when making points\n6. Maintain context from previous questions in the conversation\n\nGuidelines:\n- Be concise but thorough\n- Use technical terms appropriately\n- Provide specific examples from the alerts\n- If you see patterns, mention them\n- Give practical recommendations\n- Remember previous questions and build upon them\n- If the question cannot be fully answered from the context, say so"

/-- `generateRAGAnswer`: system prompt, last six history turns, then the
context block and question; one completion round-trip at temperature 0.7 and
1000 max tokens, with the deterministic sources suffix appended.  The second
component counts completion calls. -/
def generateRAGAnswer (env : RAGEnv) (question context : String)
    (alerts : List StoredAlert) (history : List Msg) : Except String String × Nat :=
  match env.complete
      ([⟨"system", ragSystemPrompt⟩]
        ++ (if history.length > 0 then history.drop (history.length - 6) else [])
        ++ [⟨"user", context ++ "\n\nQuestion: " ++ question
              ++ "\n\nPlease analyze the alerts above and provide a detailed answer."⟩])
      ⟨(7 : Rat)/10, some 1000⟩ with
  | Except.ok answer =>
    (Except.ok (answer ++ "\n\nSources: " ++ alerts.length.repr
      ++ " relevant alert(s) analyzed (similarity: "
      ++ env.pct0 ((alerts.head?.map StoredAlert.similarity).getD 0) ++ "% - "
      ++ env.pct0 ((alerts.getLast?.map StoredAlert.similarity).getD 0) ++ "%)"), 1)
  | Except.error e => (Except.error e, 1)

/-- The fixed zero-hit answer of `processRAGQuestion`. -/
def noRelevantAnswer : String :=
  "I couldn't find any relevant alerts to answer your question. Try asking about specific hosts, time periods, or alert types."

/-- The metadata `sources` entry built from one retrieved alert. -/
def toRAGSource (a : StoredAlert) : RAGSource :=
  ⟨a.problem_id, a.host, a.timestamp, a.description, a.similarity⟩

/-- `processRAGQuestion`: embed the question, run similarity search at
threshold 0.7 / top 10, return the fixed answer on zero hits, otherwise
narrate over the assembled context.  The second component counts completion
(not embedding) provider calls. -/
def processRAGQuestion (env : RAGEnv) (question : String) (history : List Msg) :
    Except String RAGResponse × Nat :=
  match env.embed question with
  | Except.error e => (Except.error e, 0)
  | Except.ok questionEmbedding =>
    match env.search questionEmbedding ((7 : Rat)/10) 10 with
    | Except.error e => (Except.error e, 0)
    | Except.ok relevantAlerts =>
      if (relevantAlerts.getD []).length = 0 then
        (Except.ok ⟨noRelevantAnswer, "rag", ⟨[], 0⟩⟩, 0)
      else
        match generateRAGAnswer env question
            (formatAlertsContext env (relevantAlerts.getD [])) (relevantAlerts.getD []) history with
        | (Except.ok answer, n) =>
          (Except.ok ⟨answer, "rag",
            ⟨(relevantAlerts.getD []).map toRAGSource, (relevantAlerts.getD []).length⟩⟩, n)
        | (Except.error e, n) => (Except.error e, n)

/-! ### Embedding-input composition (ragEngine.generateAlertEmbedding) -/

/-- The six alert fields the embedding input is composed from, each nullable
as stored. -/
structure AlertFields where
  host : Option String
  alert_type : Option String
  description : Option String
  interface : Option String
  status : Option String
  severity : Option String
deriving Repr, DecidableEq

/-- The text handed to the embedding provider by `generateAlertEmbedding`:
`[host, alert_type, description, interface, status, severity].filter(Boolean).join(' | ')`. -/
def generateAlertEmbeddingText (a : AlertFields) : String :=
  String.intercalate " | "
    (([a.host, a.alert_type, a.description, a.interface, a.status, a.severity].filter
        jsStrTruthy).map (fun o => o.getD ""))

/-- The ingest call site (upload processing route): it invokes
`generateAlertEmbedding` on the freshly parsed alert. -/
def uploadEmbedInput (a : AlertFields) : String := generateAlertEmbeddingText a

/-- The re-embedding script call site (scripts/generateEmbeddings.js): it
invokes the same `generateAlertEmbedding` on the stored alert row. -/
def scriptEmbedInput (a : AlertFields) : String := generateAlertEmbeddingText a

/-! ### Spec-worded comparison definitions (used on the reference side of the
refinement claims; written from the specification's sentences, not from the
code) -/

/-- Spec wording of the router policy: "if the SQL set matches, route SQL;
else if the RAG set matches, route RAG; else default to SQL". -/
def routePolicySpec (question : String) : Route :=
  if sqlKeywords.any (fun keyword => strContains (jsToLower question) keyword) then Route.sql
  else if ragKeywords.any (fun keyword => strContains (jsToLower question) keyword) then Route.rag
  else Route.sql

/-- Spec wording of the severity policy: fixed escalation-ordered keyword
tiers CRITICAL/DISASTER > HIGH > WARNING/AVERAGE > LOW/INFORMATION, then
derive from status (PROBLEM → WARNING, else LOW). -/
def severityPolicySpec (row : RowFrag) : String :=
  if strContains (jsToUpper row.text) "CRITICAL"
      || strContains (jsToUpper row.text) "DISASTER" then "CRITICAL"
  else if strContains (jsToUpper row.text) "HIGH" then "HIGH"
  else if strContains (jsToUpper row.text) "WARNING"
      || strContains (jsToUpper row.text) "AVERAGE" then "WARNING"
  else if strContains (jsToUpper row.text) "LOW"
      || strContains (jsToUpper row.text) "INFORMATION" then "LOW"
  else if extractStatus row = "PROBLEM" then "WARNING" else "LOW"

/-- The amended host policy: ordered candidates (class-hinted element,
second cell, `Host:` regex capture), a candidate accepted exactly when its
length lies in [1, 99], default `"UNKNOWN"`. -/
def hostPolicySpec (row : RowFrag) : String :=
  if 1 ≤ (jsTrim (findByClass row "host")).length
      ∧ (jsTrim (findByClass row "host")).length ≤ 99 then jsTrim (findByClass row "host")
  else if 1 ≤ (jsTrim (cellText row 1)).length
      ∧ (jsTrim (cellText row 1)).length ≤ 99 then jsTrim (cellText row 1)
  else if 1 ≤ ((scanFor tryHostPattern row.text.data).getD "").length
      ∧ ((scanFor tryHostPattern row.text.data).getD "").length ≤ 99 then
    (scanFor tryHostPattern row.text.data).getD ""
  else "UNKNOWN"

/-- Spec wording of the embedding composition: the truthy (non-null,
non-empty) values of the six fields, in that fixed order, joined with the
fixed separator. -/
def embedTextSpec (a : AlertFields) : String :=
  String.intercalate " | "
    ([a.host, a.alert_type, a.description, a.interface, a.status, a.severity].filterMap
      (fun o => match o with
        | some s => if s = "" then none else some s
        | none => none))

/-! ### Concrete inputs used by the per-claim evaluation theorems -/

/-- Date context for the concrete documents: no cell text parses as a date.
The specific values never influence the claims they are used for. -/
def exDateCtx : JSDateCtx := { now := 1700000000000, parseDate := fun _ => none }

/-- Scenario A, red row: `bgcolor="#ff0000"`, status text PROBLEM, Problem
ID 12345. -/
def scenarioARedRow : RowFrag :=
  { cells := ["2024-01-15 10:30:00", "Router-01", "PROBLEM", "Problem ID: 12345"]
    classElems := []
    bgcolor := some "#ff0000"
    text := "2024-01-15 10:30:00 Router-01 PROBLEM Problem ID: 12345" }

/-- Scenario A, green row: status text OK, the same Problem ID 12345. -/
def scenarioAGreenRow : RowFrag :=
  { cells := ["2024-01-15 11:30:00", "Router-01", "OK", "Problem ID: 12345"]
    classElems := []
    bgcolor := some "#00ff00"
    text := "2024-01-15 11:30:00 Router-01 OK Problem ID: 12345" }

/-- A row none of whose text matches any explicit id pattern (no digits at
all), used to exercise the fallback id synthesis. -/
def fallbackRow : RowFrag :=
  { cells := ["", "core-sw"]
    classElems := []
    bgcolor := none
    text := "core-sw link flap notice" }

/-- A candidate host of length exactly 100. -/
def host100 : String := String.mk (List.replicate 100 'a')

/-- A row whose only host candidate has length exactly 100. -/
def host100Row : RowFrag :=
  { cells := ["", host100], classElems := [], bgcolor := none, text := "" }

/-- A trivially constant completion provider for concrete evaluations. -/
def exComplete : List Msg → LLMOpts → Except String String := fun _ _ => Except.ok "narrated"

/-- A trivially constant serializer for concrete evaluations. -/
def exStringify : List SQLRow → String := fun _ => ""

/-- A RAG environment whose similarity search returns a null result. -/
def exRagEnv : RAGEnv :=
  { embed := fun _ => Except.ok []
    search := fun _ _ _ => Except.ok none
    complete := fun _ _ => Except.ok ""
    locale := fun s => s
    pct1 := fun _ => ""
    pct0 := fun _ => "" }

/-! ### Helper lemmas -/

/-- A string built from a nonempty character list is nonempty. -/
lemma stringMk_ne_empty (c : Char) (l : List Char) : String.mk (c :: l) ≠ "" := by
  intro h
  exact List.cons_ne_nil c l (congrArg String.data h)

/-- String append concatenates the underlying character lists. -/
lemma strData_append (a b : String) : (a ++ b).data = a.data ++ b.data := rfl

/-- A string whose character list is empty is the empty string. -/
lemma eq_empty_of_data_eq_nil (s : String) (h : s.data = []) : s = "" := by
  cases s with
  | mk d =>
    have h2 : d = [] := h
    subst h2
    rfl

/-- `substring(0, 20)` of a nonempty string is nonempty. -/
lemma jsSubstring20_ne (s : String) (h : s.data ≠ []) : jsSubstring s 0 20 ≠ "" := by
  unfold jsSubstring
  cases hd : s.data with
  | nil => exact absurd hd h
  | cons c t => exact stringMk_ne_empty c (t.take 19)

/-- Every candidate accepted by `extractHost`'s check is nonempty, and the
default is nonempty, so `extractHost` never returns the empty string. -/
lemma extractHost_ne_empty (row : RowFrag) : extractHost row ≠ "" := by
  unfold extractHost
  split_ifs with h1 h2 h3
  · intro he; rw [he] at h1; exact absurd h1 (by decide)
  · intro he; rw [he] at h2; exact absurd h2 (by decide)
  · intro he; rw [he] at h3; exact absurd h3 (by decide)
  · decide

/-- A successful digit-capture match is a nonempty capture. -/
lemma tryNumPattern_some_ne (ci aw : Bool) (label s : List Char) (r : String)
    (h : tryNumPattern ci aw label s = some r) : r ≠ "" := by
  unfold tryNumPattern at h
  split at h
  · exact Option.noConfusion h
  · split at h
    · exact Option.noConfusion h
    · have hr : String.mk _ = r := Option.some.inj h
      rw [← hr]
      exact stringMk_ne_empty _ _

/-- A property of every per-position match transfers to the scanner. -/
lemma scanFor_some_prop (f : List Char → Option String) (P : String → Prop)
    (hf : ∀ s r, f s = some r → P r) :
    ∀ (l : List Char) (r : String), scanFor f l = some r → P r := by
  intro l
  induction l with
  | nil => intro r h; exact hf [] r h
  | cons c cs ih =>
    intro r h
    unfold scanFor at h
    split at h
    next x heq =>
      have hx : x = r := Option.some.inj h
      subst hx
      exact hf _ _ heq
    next heq =>
      exact ih r h

/-- A successful `findNumPattern` capture is nonempty. -/
lemma findNumPattern_some_ne (ci aw : Bool) (label t r : String)
    (h : findNumPattern ci aw label t = some r) : r ≠ "" :=
  scanFor_some_prop (tryNumPattern ci aw label.data) (fun x => x ≠ "")
    (fun s x hs => tryNumPattern_some_ne ci aw label.data s x hs) t.data r h

/-- Every explicit id pattern captures at least one digit, so a pattern
match is never the empty string. -/
lemma problemIdPatterns_some_ne (t r : String) (h : problemIdPatterns t = some r) :
    r ≠ "" := by
  unfold problemIdPatterns at h
  split at h
  next x heq => exact (Option.some.inj h) ▸ findNumPattern_some_ne _ _ _ _ _ heq
  next heq1 =>
    split at h
    next x heq => exact (Option.some.inj h) ▸ findNumPattern_some_ne _ _ _ _ _ heq
    next heq2 =>
      split at h
      next x heq => exact (Option.some.inj h) ▸ findNumPattern_some_ne _ _ _ _ _ heq
      next heq3 => exact findNumPattern_some_ne _ _ _ _ _ h

/-- `extractProblemId` never returns the empty string: a pattern capture is
nonempty, and the synthesized fallback starts with the nonempty host. -/
lemma extractProblemId_ne_empty (ctx : JSDateCtx) (row : RowFrag) :
    extractProblemId ctx row ≠ "" := by
  unfold extractProblemId
  cases hp : problemIdPatterns row.text with
  | some pid => exact problemIdPatterns_some_ne _ _ hp
  | none =>
    apply jsSubstring20_ne
    rw [strData_append, strData_append]
    intro hc
    rcases List.append_eq_nil.mp hc with ⟨hc1, _⟩
    rcases List.append_eq_nil.mp hc1 with ⟨hc2, _⟩
    exact extractHost_ne_empty row (eq_empty_of_data_eq_nil _ hc2)

/-- One narration branch call always performs exactly one completion
round-trip (successful or failed). -/
lemma narrateResults_one_call (complete : List Msg → LLMOpts → Except String String)
    (stringify : List SQLRow → String) (question : String) (rs : List SQLRow) :
    (narrateResults complete stringify question rs).2 = 1 := by
  unfold narrateResults
  split <;> rfl

/-- JS `filter(Boolean)` followed by unwrapping coincides with keeping the
non-null, non-empty values. -/
lemma filter_truthy_eq_filterMap (l : List (Option String)) :
    (l.filter jsStrTruthy).map (fun o => o.getD "")
      = l.filterMap (fun o => match o with
          | some s => if s = "" then none else some s
          | none => none) := by
  induction l with
  | nil => rfl
  | cons o t ih =>
    cases o with
    | none => simpa [jsStrTruthy] using ih
    | some s =>
      by_cases hs : s = ""
      · subst hs; simpa [jsStrTruthy] using ih
      · simp [jsStrTruthy, hs, ih]

/-- Unrolled accumulator form of `parseHTMLAlerts`: since `problem_id` and
`host` are always nonempty, every row with at least one cell contributes its
record. -/
lemma parseHTMLAlerts_fold (ctx : JSDateCtx) :
    ∀ (rows : List RowFrag) (acc : List Alert),
      rows.foldl (parseStep ctx) acc
        = acc ++ (rows.filter (fun r => !r.cells.isEmpty)).map (buildAlert ctx) := by
  intro rows
  induction rows with
  | nil => intro acc; simp
  | cons r rs ih =>
    intro acc
    rw [List.foldl_cons, List.filter_cons]
    cases he : r.cells.isEmpty with
    | true =>
      have hs : parseStep ctx acc r = acc := by
        unfold parseStep
        rw [if_pos he]
      rw [hs, ih]
      simp [he]
    | false =>
      have hguard : (buildAlert ctx r).problem_id ≠ "" ∧ (buildAlert ctx r).host ≠ "" :=
        ⟨extractProblemId_ne_empty ctx r, extractHost_ne_empty r⟩
      have hs : parseStep ctx acc r = acc ++ [buildAlert ctx r] := by
        unfold parseStep
        rw [if_neg (by simp [he]), if_pos hguard]
      rw [hs, ih]
      simp [he]

/-! ### Claim theorems -/

/-- Claim C1 (amended): the scenario-A document — one red row
(`bgcolor="#ff0000"`, PROBLEM, Problem ID 12345) and one green row (OK, same
Problem ID) — parses to exactly two alert records, the first with status
PROBLEM and the second also with status PROBLEM (its text contains
"Problem ID: 12345", whose upper-casing contains the substring "PROBLEM",
which `extractStatus` checks before "OK"), both with problem_id "12345". -/
theorem scenarioA_parse_two_problem_records :
    (parseHTMLAlerts exDateCtx [scenarioARedRow, scenarioAGreenRow]).map Alert.status
        = ["PROBLEM", "PROBLEM"]
      ∧ (parseHTMLAlerts exDateCtx [scenarioARedRow, scenarioAGreenRow]).map Alert.problem_id
        = ["12345", "12345"] :=
  ⟨by decide, by decide⟩

/-- Claim C1, counterexample to the claim as stated: the green row does not
parse with status OK — the parsed statuses are not [PROBLEM, OK]. -/
theorem scenarioA_green_row_not_ok :
    (parseHTMLAlerts exDateCtx [scenarioARedRow, scenarioAGreenRow]).map Alert.status
      ≠ ["PROBLEM", "OK"] := by decide

/-- Claim C2: a query whose trimmed upper-casing does not start with SELECT
is rejected with the "Only SELECT queries are allowed" error and the store's
query-execution RPC is never invoked; a query that does start with SELECT is
never rejected with that error. -/
theorem executeSQLQuery_select_guard (st : SQLStore) (query : String) :
    ((executeSQLQuery st query).1 = Except.error SQLError.onlySelect
        ↔ jsStartsWith (jsToUpper (jsTrim query)) "SELECT" = false)
      ∧ ((executeSQLQuery st query).2 = []
        ↔ jsStartsWith (jsToUpper (jsTrim query)) "SELECT" = false)
      ∧ sqlErrorMessage SQLError.onlySelect = "Only SELECT queries are allowed" := by
  unfold executeSQLQuery
  cases hg : jsStartsWith (jsToUpper (jsTrim query)) "SELECT" with
  | false => simp [hg, sqlErrorMessage]
  | true =>
    cases hr : st.rpc query with
    | ok d => simp [hg, hr, sqlErrorMessage]
    | error e =>
      cases hd : st.directFetch with
      | ok d2 => simp [hg, hr, hd, sqlErrorMessage]
      | error e2 => simp [hg, hr, hd, sqlErrorMessage]

/-- Claim C3: the chat route's decision is exactly "SQL when the SQL keyword
set matches, else RAG when the RAG keyword set matches, else SQL"; in
particular a question containing both "why" and "alerts" routes to SQL. -/
theorem chat_route_policy :
    (∀ question, routeQuestion question = routePolicySpec question)
      ∧ routeQuestion "why are there so many alerts?" = Route.sql :=
  ⟨fun _ => rfl, by decide⟩

/-- Claim C4: when no explicit id pattern matches either row, equal
extracted hosts and equal millisecond timestamps yield the same synthesized
id, and that id is host + "-" + epoch truncated to at most 20 characters. -/
theorem fallback_problem_id_deterministic
    (ctx₁ ctx₂ : JSDateCtx) (r₁ r₂ : RowFrag)
    (hp₁ : problemIdPatterns r₁.text = none)
    (hp₂ : problemIdPatterns r₂.text = none)
    (hhost : extractHost r₁ = extractHost r₂)
    (hts : extractTimestampEpoch ctx₁ r₁ = extractTimestampEpoch ctx₂ r₂) :
    extractProblemId ctx₁ r₁ = extractProblemId ctx₂ r₂
      ∧ extractProblemId ctx₁ r₁
        = jsSubstring (extractHost r₁ ++ "-" ++ (extractTimestampEpoch ctx₁ r₁).repr) 0 20 := by
  unfold extractProblemId
  rw [hp₁, hp₂]
  refine ⟨?_, rfl⟩
  show jsSubstring (extractHost r₁ ++ "-" ++ (extractTimestampEpoch ctx₁ r₁).repr) 0 20
      = jsSubstring (extractHost r₂ ++ "-" ++ (extractTimestampEpoch ctx₂ r₂).repr) 0 20
  rw [hhost, hts]

/-- Claim C4, witness: a concrete patternless row, evaluated through the
theorem. -/
theorem fallback_problem_id_deterministic_witness :
    problemIdPatterns fallbackRow.text = none
      ∧ extractProblemId exDateCtx fallbackRow
          = jsSubstring (extractHost fallbackRow ++ "-"
              ++ (extractTimestampEpoch exDateCtx fallbackRow).repr) 0 20 :=
  ⟨by decide,
   (fallback_problem_id_deterministic exDateCtx exDateCtx fallbackRow fallbackRow
      (by decide) (by decide) rfl rfl).2⟩

/-- Claim C5: `extractSeverity` realizes the tiered policy
CRITICAL/DISASTER > HIGH > WARNING/AVERAGE > LOW/INFORMATION on the
upper-cased row text, and with no keyword present defaults to WARNING for
status PROBLEM and LOW otherwise. -/
theorem extractSeverity_policy (row : RowFrag) :
    extractSeverity row = severityPolicySpec row := by
  unfold extractSeverity severityPolicySpec
  cases h1 : strContains (jsToUpper row.text) "DISASTER" <;>
  cases h2 : strContains (jsToUpper row.text) "CRITICAL" <;>
  cases h3 : strContains (jsToUpper row.text) "HIGH" <;>
  cases h4 : strContains (jsToUpper row.text) "AVERAGE" <;>
  cases h5 : strContains (jsToUpper row.text) "WARNING" <;>
  cases h6 : strContains (jsToUpper row.text) "LOW" <;>
  cases h7 : strContains (jsToUpper row.text) "INFORMATION" <;>
  simp [h1, h2, h3, h4, h5, h6, h7]

/-- Claim C5, witness: a row with no severity keyword and status PROBLEM,
evaluated through the theorem. -/
theorem extractSeverity_policy_witness :
    extractSeverity scenarioARedRow = severityPolicySpec scenarioARedRow
      ∧ extractSeverity scenarioARedRow = "WARNING" :=
  ⟨extractSeverity_policy scenarioARedRow, by decide⟩

/-- Claim C6: when similarity search yields a null result or zero rows, the
RAG engine returns the fixed no-relevant-data answer with type "rag", empty
sources and relevantCount 0, and performs no completion-provider call. -/
theorem rag_no_hits_fixed_answer (env : RAGEnv) (question : String) (history : List Msg)
    (emb : List Rat) (found : Option (List StoredAlert))
    (hemb : env.embed question = Except.ok emb)
    (hsearch : env.search emb ((7 : Rat)/10) 10 = Except.ok found)
    (hzero : found.getD [] = []) :
    processRAGQuestion env question history
      = (Except.ok ⟨noRelevantAnswer, "rag", ⟨[], 0⟩⟩, 0) := by
  simp [processRAGQuestion, hemb, hsearch, hzero]

/-- Claim C6, witness: a concrete environment whose search returns null,
evaluated through the theorem. -/
theorem rag_no_hits_fixed_answer_witness :
    exRagEnv.embed "Why is Router-01 failing?" = Except.ok []
      ∧ exRagEnv.search [] ((7 : Rat)/10) 10 = Except.ok none
      ∧ (none : Option (List StoredAlert)).getD [] = []
      ∧ processRAGQuestion exRagEnv "Why is Router-01 failing?" []
        = (Except.ok ⟨noRelevantAnswer, "rag", ⟨[], 0⟩⟩, 0) :=
  ⟨rfl, rfl, rfl,
   rag_no_hits_fixed_answer exRagEnv "Why is Router-01 failing?" [] [] none rfl rfl rfl⟩

/-- Claim C7: the embedding input is exactly the truthy values of
{host, alert_type, description, interface, status, severity}, in that fixed
order, joined with " | "; the ingest call site and the re-embedding script
call site compute identical strings on equal field values, both invoking the
same composition. -/
theorem embedding_text_composition :
    (∀ a, generateAlertEmbeddingText a = embedTextSpec a)
      ∧ (∀ a, uploadEmbedInput a = scriptEmbedInput a) := by
  constructor
  · intro a
    unfold generateAlertEmbeddingText embedTextSpec
    rw [filter_truthy_eq_filterMap]
  · intro a
    rfl

/-- Claim C8 (amended): a single-row single-column result is rendered as the
direct scalar answer "The answer is: value" with no completion round-trip;
a completion round-trip happens exactly when the result set is non-empty and
is not a single row with a single column. -/
theorem formatSQLResults_scalar_and_calls
    (complete : List Msg → LLMOpts → Except String String)
    (stringify : List SQLRow → String) (question : String)
    (results : Option (List SQLRow)) :
    ((formatSQLResults complete stringify question results).2
        = if (results.getD []).length = 0 ∨ isSingleScalar results = true then 0 else 1)
      ∧ (isSingleScalar results = true →
          (formatSQLResults complete stringify question results).1
            = "The answer is: "
              ++ jsTemplateVal (((results.getD []).headD []).headD ("", none)).2) := by
  cases results with
  | none =>
    exact ⟨by simp [formatSQLResults, isSingleScalar], by simp [isSingleScalar]⟩
  | some rs =>
    by_cases h0 : rs.length = 0
    · constructor
      · simp [formatSQLResults, h0]
      · intro hs
        exfalso
        simp [isSingleScalar, h0] at hs
    · by_cases h1 : rs.length = 1 ∧ (rs.head?.getD []).length = 1
      · constructor
        · simp [formatSQLResults, isSingleScalar, h0, h1]
        · intro _
          simp [formatSQLResults, h0, h1]
      · constructor
        · simp [formatSQLResults, isSingleScalar, h0, h1, narrateResults_one_call]
        · intro hs
          exfalso
          simp [isSingleScalar] at hs
          exact h1 hs

/-- Claim C8, witness: the count query's single-cell result, evaluated
through the theorem. -/
theorem formatSQLResults_scalar_and_calls_witness :
    isSingleScalar (some [[("count", some "42")]]) = true
      ∧ (formatSQLResults exComplete exStringify "How many total alerts do we have?"
          (some [[("count", some "42")]])).1 = "The answer is: 42" := by
  refine ⟨by decide, ?_⟩
  have h := (formatSQLResults_scalar_and_calls exComplete exStringify
      "How many total alerts do we have?" (some [[("count", some "42")]])).2 (by decide)
  exact h.trans (by decide)

/-- Claim C8, counterexample to the claim as stated: a result set of one row
with zero columns has neither more than one row nor more than one column,
yet still incurs a completion round-trip. -/
theorem formatSQLResults_single_empty_row_calls_provider :
    (formatSQLResults exComplete exStringify "How many total alerts do we have?"
        (some [([] : SQLRow)])).2 = 1
      ∧ ¬(((some [([] : SQLRow)] : Option (List SQLRow)).getD []).length > 1
          ∨ (([] : SQLRow)).length > 1) :=
  ⟨by decide, by decide⟩

/-- Claim C9 (amended): `extractHost` tries, in order, the class-hinted
element text, the second cell text, and the `Host:` regex capture, accepting
a candidate exactly when its length lies in [1, 99] (the source bound is
`value.length < 100`), and returns "UNKNOWN" when every candidate is
rejected. -/
theorem extractHost_policy (row : RowFrag) : extractHost row = hostPolicySpec row := by
  unfold extractHost hostPolicySpec
  split_ifs with h1 h2 h3 h4 h5 h6 <;>
    (try simp only [hostOk] at *) <;> first | rfl | omega

/-- Claim C9, counterexample to the claim as stated: a candidate of length
exactly 100 is rejected, not accepted, so the row falls through to
"UNKNOWN". -/
theorem extractHost_rejects_length_100 :
    host100.length = 100
      ∧ jsTrim (cellText host100Row 1) = host100
      ∧ extractHost host100Row = "UNKNOWN"
      ∧ extractHost host100Row ≠ host100 :=
  ⟨by decide, by decide, by decide, by decide⟩

/-- Claim C10: the tabular parser's acceptance guard never discards a row —
every table row with at least one td cell yields its record, because
`extractHost` and `extractProblemId` always return nonempty strings. -/
theorem parseHTMLAlerts_accepts_every_cell_row (ctx : JSDateCtx) (rows : List RowFrag) :
    parseHTMLAlerts ctx rows
      = (rows.filter (fun r => !r.cells.isEmpty)).map (buildAlert ctx) := by
  unfold parseHTMLAlerts
  rw [parseHTMLAlerts_fold]
  simp
